import Mathlib

/-!
Verification of the Kokoro TTS API wrapper.

A shallow embedding of `kokoro_tts_api.py`: the request validator
(`validate_request_data`), the synthesis invoker (`run_kokoro_command`),
and the endpoint handlers (`synthesize_text`, `synthesize_stream`,
`get_voices`).

Python strings are modelled as `List Char` (`Str`); JSON values carried in
a request body as `JVal`; a parsed JSON body as an association list from
key to `JVal`.  The filesystem and the external `kokoro` subprocess are
modelled by an environment `Env` of oracles: `Env.run` gives the outcome
of one `subprocess.run` call (completion with an exit code, timeout, or
another raised exception), `Env.fileExists` gives the result of the
post-run `os.path.exists` check, and `Env.readFile` the result of reading
the produced file in the streaming endpoint.  Exceptions that the Python
code raises or catches are made explicit in `PyErr`: `BadRequest` from
validation, and `attributeError` for calling a string method (`strip`,
`lower`) on a non-string JSON value.  The per-request `uuid.uuid4()` value
is an explicit parameter `fileId` of the handlers.
-/

/-- A Python string, modelled as its list of characters. -/
abbrev Str := List Char

/-- The whitespace characters removed by Python `str.strip()` (ASCII range). -/
def isPySpace (c : Char) : Bool :=
  c = ' ' || c = '\t' || c = '\n' || c = '\x0d' || c = '\x0b' || c = '\x0c'

/-- Python `str.strip()`: drop leading and trailing whitespace. -/
def pyStrip (s : Str) : Str :=
  ((s.dropWhile isPySpace).reverse.dropWhile isPySpace).reverse

/-- Python `str.lower()` (ASCII range). -/
def pyLower (s : Str) : Str := s.map Char.toLower

/-- A JSON value as it appears in a parsed request body. -/
inductive JVal where
  | jstr (s : Str)
  | jnum (n : Int)
  | jbool (b : Bool)
  | jnull
deriving DecidableEq, Repr

/-- Python truthiness of a JSON value (`if x:`). -/
def JVal.truthy : JVal → Bool
  | .jstr s => !s.isEmpty
  | .jnum n => n != 0
  | .jbool b => b
  | .jnull => false

/-- A parsed JSON request body: a finite map from key to value. -/
abbrev Body := List (String × JVal)

/-- Python `dict.get(key, default)`. -/
def getD (data : Body) (key : String) (dflt : JVal) : JVal :=
  (data.lookup key).getD dflt

/-- The exceptions relevant to the request path: `werkzeug` `BadRequest`
(carrying its message) raised by the validator, and `AttributeError`
raised by calling `strip`/`lower` on a non-string value. -/
inductive PyErr where
  | badRequest (msg : String)
  | attributeError
deriving DecidableEq, Repr

/-- Source constant `Config.MAX_TEXT_LENGTH`. -/
def Config.MAX_TEXT_LENGTH : Nat := 10000

/-- Source constant `Config.ALLOWED_VOICES`, as Python string literals. -/
def Config.ALLOWED_VOICES_LIT : List String :=
  ["af_alloy", "af_aoede", "af_bella", "af_heart", "af_jessica", "af_kore",
   "af_nicole", "af_nova", "af_river", "af_sarah", "af_sky", "am_adam",
   "am_michael", "bf_alice", "bf_emma", "bf_isabella", "bf_lily",
   "bm_george", "bm_lewis", "jf_alpha", "jf_gongitsune", "jf_nezumi",
   "jf_tebukuro"]

/-- Source constant `Config.ALLOWED_VOICES` in the `Str` representation. -/
def Config.ALLOWED_VOICES : List Str := Config.ALLOWED_VOICES_LIT.map String.toList

/-- Message of the absent/empty-body `BadRequest`. -/
def msg_body_required : String := "Request body is required"

/-- Message of the empty-text `BadRequest`. -/
def msg_text_required : String := "Text field is required and cannot be empty"

/-- Message of the over-long-text `BadRequest`. -/
def msg_text_length : String :=
  "Text length exceeds maximum of " ++ toString Config.MAX_TEXT_LENGTH ++ " characters"

/-- Message of the invalid-voice `BadRequest`. -/
def msg_invalid_voice : String :=
  "Invalid voice. Allowed voices: " ++ String.intercalate ", " Config.ALLOWED_VOICES_LIT

/-- Message of the unsupported-format `BadRequest`. -/
def msg_format : String :=
  "Only WAV format is supported. Please omit the format parameter or use \x27wav\x27."

/-- The validator `validate_request_data(data)`: mirrors the Python source line by line.
`data.get('text', '').strip()` raises `AttributeError` when the `text`
value is not a string; `voice not in config.ALLOWED_VOICES` is plain
membership (true for every non-string value); the format check first tests
truthiness of `data.get('format')` and only then calls `.lower()`, which
raises `AttributeError` on a truthy non-string. -/
def validate_request_data (data : Body) : Except PyErr (Str × Str) :=
  if data.isEmpty then .error (.badRequest msg_body_required)
  else
    match getD data "text" (.jstr []) with
    | .jstr traw =>
      let text := pyStrip traw
      if text.isEmpty then .error (.badRequest msg_text_required)
      else if text.length > Config.MAX_TEXT_LENGTH then .error (.badRequest msg_text_length)
      else
        match getD data "voice" (.jstr (String.toList "af_heart")) with
        | .jstr voice =>
          if Config.ALLOWED_VOICES.contains voice then
            let format_param := getD data "format" .jnull
            if format_param.truthy then
              match format_param with
              | .jstr s =>
                if pyLower s = String.toList "wav" then .ok (text, voice)
                else .error (.badRequest msg_format)
              | _ => .error .attributeError
            else .ok (text, voice)
          else .error (.badRequest msg_invalid_voice)
        | _ => .error (.badRequest msg_invalid_voice)
    | _ => .error .attributeError

deriving instance DecidableEq for Except

/-- Outcome of one `subprocess.run` call: normal completion (with exit
code and captured stdout/stderr), `TimeoutExpired`, or any other raised
exception (e.g. the binary being absent). -/
inductive RunOutcome where
  | completed (returncode : Int) (stdout stderr : String)
  | timedOut
  | raised
deriving DecidableEq, Repr

/-- The environment: outcome of a subprocess invocation (argv and timeout),
the post-invocation file-existence check, and the result of reading a file
(`none` models a raised read error). -/
structure Env where
  run : List Str → Nat → RunOutcome
  fileExists : Str → Bool
  readFile : Str → Option (List Nat)

/-- The argv built by `run_kokoro_command`. -/
def kokoroCmd (text voice output_path : Str) : List Str :=
  [String.toList "kokoro", String.toList "--voice", voice,
   String.toList "--text", text, String.toList "-o", output_path]

/-- The invoker `run_kokoro_command(text, voice, output_path)`: one `subprocess.run`
with `timeout=60`; returns `False` on nonzero exit, on a missing output
file, on `TimeoutExpired`, and on any other exception; `True` otherwise.
The second component records the subprocess invocations performed
(argv and timeout), to state single-invocation properties. -/
def run_kokoro_command (env : Env) (text voice output_path : Str) :
    Bool × List (List Str × Nat) :=
  let cmd := kokoroCmd text voice output_path
  let calls := [(cmd, 60)]
  match env.run cmd 60 with
  | .completed rc _ _ =>
    if rc != 0 then (false, calls)
    else if !(env.fileExists output_path) then (false, calls)
    else (true, calls)
  | .timedOut => (false, calls)
  | .raised => (false, calls)

/-- The generated filename, `f"kokoro_tts_(file_id).wav"` in the source. -/
def output_filename (fileId : Str) : Str :=
  String.toList "kokoro_tts_" ++ fileId ++ String.toList ".wav"

/-- The artifact path `os.path.join(config.TEMP_DIR, output_filename)`, with
the temp directory an explicit parameter. -/
def output_path (tempDir fileId : Str) : Str :=
  tempDir ++ ('/' :: output_filename fileId)

/-- The body of an HTTP response, abstracted to what the handlers build:
a `send_file` attachment, raw audio bytes, a JSON error object, or the
JSON object returned by `/voices`. -/
inductive RespBody where
  | fileDownload (path : Str) (download_name : String) (mimetype : String)
  | bytesInline (bytes : List Nat)
  | jsonError (error : String) (message : String)
  | jsonVoices (voices : List Str) (dflt : Str) (supported_format : Str)
deriving DecidableEq, Repr

/-- An HTTP response: status code and body. -/
structure Resp where
  status : Nat
  body : RespBody
deriving DecidableEq, Repr

/-- The generic 500 response of the `except Exception` handlers. -/
def resp_internal_error : Resp :=
  ⟨500, .jsonError "Internal server error" "An unexpected error occurred"⟩

/-- The 500 response for a failed synthesis. -/
def resp_synth_failed : Resp :=
  ⟨500, .jsonError "TTS synthesis failed" "Failed to generate audio file"⟩

/-- Handler of `GET /voices`. -/
def get_voices : Resp :=
  ⟨200, .jsonVoices Config.ALLOWED_VOICES (String.toList "af_heart") (String.toList "wav")⟩

/-- Handler of `POST /synthesize`: validate, build the unique output path,
invoke the tool, and answer 200 with the file, 400 on `BadRequest`, or
500 on synthesis failure / unexpected exception.  Returns the response
together with the list of subprocess invocations made. -/
def synthesize_text (env : Env) (tempDir fileId : Str) (data : Body) :
    Resp × List (List Str × Nat) :=
  match validate_request_data data with
  | .error (.badRequest m) => (⟨400, .jsonError "Invalid request" m⟩, [])
  | .error .attributeError => (resp_internal_error, [])
  | .ok (text, voice) =>
    let path := output_path tempDir fileId
    let r := run_kokoro_command env text voice path
    if r.1 then
      (⟨200, .fileDownload path "tts_output.wav" "audio/wav"⟩, r.2)
    else (resp_synth_failed, r.2)

/-- Handler of `POST /synthesize/stream`: like `synthesize_text`, but reads
the produced file back and returns its bytes inline; a read failure is a
distinct 500. -/
def synthesize_stream (env : Env) (tempDir fileId : Str) (data : Body) :
    Resp × List (List Str × Nat) :=
  match validate_request_data data with
  | .error (.badRequest m) => (⟨400, .jsonError "Invalid request" m⟩, [])
  | .error .attributeError => (resp_internal_error, [])
  | .ok (text, voice) =>
    let path := output_path tempDir fileId
    let r := run_kokoro_command env text voice path
    if r.1 then
      match env.readFile path with
      | some audio_data => (⟨200, .bytesInline audio_data⟩, r.2)
      | none => (⟨500, .jsonError "File read error" "Failed to read generated audio file"⟩, r.2)
    else (resp_synth_failed, r.2)

/-- Holds when the `text` field, if present, is a JSON string — the typed
shape the spec data model gives it.  A non-string `text` makes the Python
validator raise `AttributeError`. -/
def textFieldIsString (data : Body) : Bool :=
  match data.lookup "text" with
  | some (.jstr _) => true
  | some _ => false
  | none => true

/-- Holds when the `format` field cannot make `.lower()` raise: it is
absent, a string, or falsy. -/
def formatFieldSafe (data : Body) : Bool :=
  match data.lookup "format" with
  | some (.jstr _) => true
  | some v => !v.truthy
  | none => true

/-- An environment in which the subprocess completes with exit code 0 and
the output file exists. -/
def envOk : Env :=
  ⟨fun _ _ => .completed 0 "" "", fun _ => true, fun _ => some []⟩

/-- An environment in which every subprocess invocation times out. -/
def envTimeout : Env :=
  ⟨fun _ _ => .timedOut, fun _ => false, fun _ => none⟩

/-- The tail of the validator once the voice check has passed: the format
check of `validate_request_data` (`data.get('format')`, truthiness test,
then `.lower() != 'wav'`), factored out so lemmas can name it.
`validate_reaches_format` below proves the validator equal to it once the
earlier checks pass. -/
def formatCheck (data : Body) (res : Str × Str) : Except PyErr (Str × Str) :=
  let format_param := getD data "format" .jnull
  if format_param.truthy then
    match format_param with
    | .jstr s =>
      if pyLower s = String.toList "wav" then .ok res
      else .error (.badRequest msg_format)
    | _ => .error .attributeError
  else .ok res

/-- Python membership `v in config.ALLOWED_VOICES` for a JSON value: only
a string can be a member of a list of strings. -/
def voiceInAllowList : JVal → Bool
  | .jstr s => Config.ALLOWED_VOICES.contains s
  | _ => false

/-! Helper lemmas about the embedded definitions. -/

lemma isEmpty_false_of_lookup {data : Body} {k : String} {v : JVal}
    (h : data.lookup k = some v) : data.isEmpty = false := by
  cases data with
  | nil => simp [List.lookup] at h
  | cons a l => rfl

lemma getD_of_lookup {data : Body} {k : String} {v : JVal} (dflt : JVal)
    (h : data.lookup k = some v) : getD data k dflt = v := by
  simp [getD, h]

lemma getD_of_lookup_none {data : Body} {k : String} (dflt : JVal)
    (h : data.lookup k = none) : getD data k dflt = dflt := by
  simp [getD, h]

lemma run_kokoro_calls (env : Env) (t v p : Str) :
    (run_kokoro_command env t v p).2 = [(kokoroCmd t v p, 60)] := by
  simp only [run_kokoro_command]
  cases h : env.run (kokoroCmd t v p) 60 with
  | completed rc out err =>
    by_cases hrc : rc = 0 <;> by_cases hf : env.fileExists p <;> simp [hrc, hf]
  | timedOut => simp
  | raised => simp

lemma synthesize_text_of_badRequest (env : Env) (d f : Str) (data : Body) (m : String)
    (h : validate_request_data data = .error (.badRequest m)) :
    synthesize_text env d f data = (⟨400, .jsonError "Invalid request" m⟩, []) := by
  unfold synthesize_text
  rw [h]

lemma synthesize_stream_of_badRequest (env : Env) (d f : Str) (data : Body) (m : String)
    (h : validate_request_data data = .error (.badRequest m)) :
    synthesize_stream env d f data = (⟨400, .jsonError "Invalid request" m⟩, []) := by
  unfold synthesize_stream
  rw [h]

lemma synthesize_text_of_ok (env : Env) (d f : Str) (data : Body) (t v : Str)
    (h : validate_request_data data = .ok (t, v)) :
    synthesize_text env d f data =
      (if (run_kokoro_command env t v (output_path d f)).1 then
        (⟨200, .fileDownload (output_path d f) "tts_output.wav" "audio/wav"⟩,
          (run_kokoro_command env t v (output_path d f)).2)
      else (resp_synth_failed, (run_kokoro_command env t v (output_path d f)).2)) := by
  unfold synthesize_text
  rw [h]

lemma synthesize_text_calls_of_ok (env : Env) (d f : Str) (data : Body) (t v : Str)
    (h : validate_request_data data = .ok (t, v)) :
    (synthesize_text env d f data).2 = [(kokoroCmd t v (output_path d f), 60)] := by
  rw [synthesize_text_of_ok env d f data t v h]
  split <;> simp [run_kokoro_calls]

lemma synthesize_stream_calls_of_ok (env : Env) (d f : Str) (data : Body) (t v : Str)
    (h : validate_request_data data = .ok (t, v)) :
    (synthesize_stream env d f data).2 = [(kokoroCmd t v (output_path d f), 60)] := by
  unfold synthesize_stream
  rw [h]
  simp only []
  split
  · cases henv : env.readFile (output_path d f) <;> simp [run_kokoro_calls]
  · simp [run_kokoro_calls]

/-! Claims. -/

/-- C1: for every text, voice and output path, the invoker
`run_kokoro_command` returns success exactly when the subprocess completes
with exit status zero AND the output file exists afterwards; a nonzero
exit, a missing output file, a timeout or any other raised exception all
yield failure.  The invoker is a total function into `Bool`, so these
failure modes never escape as exceptions. -/
theorem C1_run_kokoro_success_iff (env : Env) (t v p : Str) :
    (run_kokoro_command env t v p).1 = true ↔
      ((∃ out err, env.run (kokoroCmd t v p) 60 = .completed 0 out err) ∧
        env.fileExists p = true) := by
  simp only [run_kokoro_command]
  cases h : env.run (kokoroCmd t v p) 60 with
  | completed rc out err =>
    by_cases hrc : rc = 0
    · subst hrc
      by_cases hf : env.fileExists p
      · simp [h, hf]
      · simp [h, hf]
    · simp [h, hrc]
  | timedOut => simp [h]
  | raised => simp [h]

/-- C6: the invoker always performs exactly one subprocess invocation,
with a wall-clock timeout of 60 seconds; on timeout it reports failure;
and for a validated request the endpoint makes that single invocation and
answers 500 (synthesis-failure body) when it times out. -/
theorem C6_single_invocation_and_timeout :
    (∀ (env : Env) (t v p : Str),
      (run_kokoro_command env t v p).2 = [(kokoroCmd t v p, 60)]) ∧
    (∀ (env : Env) (t v p : Str),
      env.run (kokoroCmd t v p) 60 = .timedOut →
      (run_kokoro_command env t v p).1 = false) ∧
    (∀ (env : Env) (d f : Str) (data : Body) (t v : Str),
      validate_request_data data = .ok (t, v) →
      (synthesize_text env d f data).2 = [(kokoroCmd t v (output_path d f), 60)]) ∧
    (∀ (env : Env) (d f : Str) (data : Body) (t v : Str),
      validate_request_data data = .ok (t, v) →
      env.run (kokoroCmd t v (output_path d f)) 60 = .timedOut →
      (synthesize_text env d f data).1 = resp_synth_failed) := by
  refine ⟨fun env t v p => run_kokoro_calls env t v p, ?_, ?_, ?_⟩
  · intro env t v p h
    simp [run_kokoro_command, h]
  · intro env d f data t v h
    exact synthesize_text_calls_of_ok env d f data t v h
  · intro env d f data t v h htime
    rw [synthesize_text_of_ok env d f data t v h]
    simp [run_kokoro_command, htime]

/-- Closed witness for C6: a concrete valid request against an
environment whose subprocess times out. -/
theorem C6_single_invocation_and_timeout_witness :
    validate_request_data [("text", .jstr (String.toList "Hi"))] =
      .ok (String.toList "Hi", String.toList "af_heart") ∧
    (run_kokoro_command envTimeout (String.toList "Hi") (String.toList "af_heart")
      (output_path (String.toList "/srv") (String.toList "u1"))).1 = false ∧
    (synthesize_text envTimeout (String.toList "/srv") (String.toList "u1")
      [("text", .jstr (String.toList "Hi"))]).2 =
      [(kokoroCmd (String.toList "Hi") (String.toList "af_heart")
        (output_path (String.toList "/srv") (String.toList "u1")), 60)] ∧
    (synthesize_text envTimeout (String.toList "/srv") (String.toList "u1")
      [("text", .jstr (String.toList "Hi"))]).1 = resp_synth_failed := by
  have hv : validate_request_data [("text", .jstr (String.toList "Hi"))] =
      .ok (String.toList "Hi", String.toList "af_heart") := by decide
  refine ⟨hv, ?_, ?_, ?_⟩
  · exact C6_single_invocation_and_timeout.2.1 envTimeout _ _ _ rfl
  · exact C6_single_invocation_and_timeout.2.2.1 envTimeout _ _ _ _ _ hv
  · exact C6_single_invocation_and_timeout.2.2.2 envTimeout _ _ _ _ _ hv rfl

/-- C7: the artifact path is injective in the generated identifier, so two
requests with distinct fresh identifiers never share a path; and on both
endpoints a validated request produces exactly one subprocess invocation
whose output argument is the path generated from that request's own
identifier. -/
theorem C7_artifact_path_unique :
    (∀ (d a b : Str), a ≠ b → output_path d a ≠ output_path d b) ∧
    (∀ (env : Env) (d f : Str) (data : Body) (t v : Str),
      validate_request_data data = .ok (t, v) →
      (synthesize_text env d f data).2 = [(kokoroCmd t v (output_path d f), 60)] ∧
      (synthesize_stream env d f data).2 = [(kokoroCmd t v (output_path d f), 60)]) := by
  constructor
  · intro d a b hne heq
    apply hne
    unfold output_path output_filename at heq
    have h1 := List.append_cancel_left heq
    injection h1 with _ h2
    have h3 := List.append_cancel_right h2
    exact List.append_cancel_left h3
  · intro env d f data t v h
    exact ⟨synthesize_text_calls_of_ok env d f data t v h,
      synthesize_stream_calls_of_ok env d f data t v h⟩

/-- Closed witness for C7: two concrete distinct identifiers give distinct
paths, and a concrete validated request invokes the subprocess once with
its generated path, on both endpoints. -/
theorem C7_artifact_path_unique_witness :
    output_path (String.toList "/srv") (String.toList "u1") ≠
      output_path (String.toList "/srv") (String.toList "u2") ∧
    (synthesize_text envOk (String.toList "/srv") (String.toList "u1")
      [("text", .jstr (String.toList "Hi"))]).2 =
      [(kokoroCmd (String.toList "Hi") (String.toList "af_heart")
        (output_path (String.toList "/srv") (String.toList "u1")), 60)] ∧
    (synthesize_stream envOk (String.toList "/srv") (String.toList "u1")
      [("text", .jstr (String.toList "Hi"))]).2 =
      [(kokoroCmd (String.toList "Hi") (String.toList "af_heart")
        (output_path (String.toList "/srv") (String.toList "u1")), 60)] := by
  have hv : validate_request_data [("text", .jstr (String.toList "Hi"))] =
      .ok (String.toList "Hi", String.toList "af_heart") := by decide
  have h2 := C7_artifact_path_unique.2 envOk (String.toList "/srv") (String.toList "u1")
    [("text", .jstr (String.toList "Hi"))] (String.toList "Hi") (String.toList "af_heart") hv
  exact ⟨C7_artifact_path_unique.1 (String.toList "/srv") (String.toList "u1")
    (String.toList "u2") (by decide), h2.1, h2.2⟩

/-- C8: `GET /voices` answers 200 with exactly the fixed allow-list of 23
voices, default voice `af_heart` and supported format `wav`; the handler
is a constant function of no state, so it has no side effects. -/
theorem C8_voices_fixed :
    get_voices.status = 200 ∧
    get_voices.body = .jsonVoices
      ((["af_alloy", "af_aoede", "af_bella", "af_heart", "af_jessica", "af_kore",
         "af_nicole", "af_nova", "af_river", "af_sarah", "af_sky", "am_adam",
         "am_michael", "bf_alice", "bf_emma", "bf_isabella", "bf_lily",
         "bm_george", "bm_lewis", "jf_alpha", "jf_gongitsune", "jf_nezumi",
         "jf_tebukuro"] : List String).map String.toList)
      (String.toList "af_heart") (String.toList "wav") := ⟨rfl, rfl⟩

lemma validate_of_empty (data : Body) (h : data.isEmpty = true) :
    validate_request_data data = .error (.badRequest msg_body_required) := by
  unfold validate_request_data
  simp [h]

lemma validate_of_text_nonstr (data : Body) (hne : data.isEmpty = false)
    (h : ∀ s, getD data "text" (.jstr []) ≠ .jstr s) :
    validate_request_data data = .error .attributeError := by
  unfold validate_request_data
  rw [hne]
  cases hg : getD data "text" (.jstr []) with
  | jstr s => exact absurd hg (h s)
  | jnum n => simp
  | jbool b => simp
  | jnull => simp

lemma validate_of_text_empty (data : Body) (s : Str) (hne : data.isEmpty = false)
    (hget : getD data "text" (.jstr []) = .jstr s) (h : (pyStrip s).isEmpty = true) :
    validate_request_data data = .error (.badRequest msg_text_required) := by
  unfold validate_request_data
  rw [hne, hget]
  simp [h]

lemma validate_of_text_long (data : Body) (s : Str) (hne : data.isEmpty = false)
    (hget : getD data "text" (.jstr []) = .jstr s)
    (hlen : (pyStrip s).length > Config.MAX_TEXT_LENGTH) :
    validate_request_data data = .error (.badRequest msg_text_length) := by
  have hts : (pyStrip s).isEmpty = false := by
    rw [List.isEmpty_eq_false_iff_exists_mem]
    cases hs : pyStrip s with
    | nil => rw [hs] at hlen; simp [Config.MAX_TEXT_LENGTH] at hlen
    | cons a l => exact ⟨a, by simp⟩
  unfold validate_request_data
  rw [hne, hget]
  simp [hts, hlen]

lemma validate_of_voice_bad (data : Body) (s : Str) (hne : data.isEmpty = false)
    (hget : getD data "text" (.jstr []) = .jstr s)
    (hts : (pyStrip s).isEmpty = false)
    (hlen : ¬ (pyStrip s).length > Config.MAX_TEXT_LENGTH)
    (hv : voiceInAllowList (getD data "voice" (.jstr (String.toList "af_heart"))) = false) :
    validate_request_data data = .error (.badRequest msg_invalid_voice) := by
  unfold validate_request_data
  rw [hne, hget]
  cases hg : getD data "voice" (.jstr (String.toList "af_heart")) with
  | jstr vs =>
    rw [hg] at hv
    have hv2 : vs ∉ Config.ALLOWED_VOICES := by simpa [voiceInAllowList] using hv
    simp [hts, hlen, hv2]
  | jnum n => simp [hts, hlen]
  | jbool b => simp [hts, hlen]
  | jnull => simp [hts, hlen]

lemma validate_reaches_format (data : Body) (s vs : Str) (hne : data.isEmpty = false)
    (hget : getD data "text" (.jstr []) = .jstr s)
    (hts : (pyStrip s).isEmpty = false)
    (hlen : ¬ (pyStrip s).length > Config.MAX_TEXT_LENGTH)
    (hv : getD data "voice" (.jstr (String.toList "af_heart")) = .jstr vs)
    (hmem : Config.ALLOWED_VOICES.contains vs = true) :
    validate_request_data data = formatCheck data (pyStrip s, vs) := by
  have hmem2 : vs ∈ Config.ALLOWED_VOICES := by simpa using hmem
  unfold validate_request_data formatCheck
  rw [hne, hget, hv]
  simp [hts, hlen, hmem2]

lemma textFieldIsString_getD {data : Body} (ht : textFieldIsString data = true) :
    ∃ s, getD data "text" (.jstr []) = .jstr s := by
  cases hl : data.lookup "text" with
  | none => exact ⟨[], getD_of_lookup_none _ hl⟩
  | some v =>
    unfold textFieldIsString at ht
    rw [hl] at ht
    cases v with
    | jstr s => exact ⟨s, getD_of_lookup _ hl⟩
    | jnum n => simp at ht
    | jbool b => simp at ht
    | jnull => simp at ht

lemma formatFieldSafe_getD {data : Body} (hf : formatFieldSafe data = true) :
    (getD data "format" .jnull).truthy = false ∨
      ∃ s, getD data "format" .jnull = .jstr s := by
  cases hl : data.lookup "format" with
  | none => left; rw [getD_of_lookup_none _ hl]; rfl
  | some v =>
    unfold formatFieldSafe at hf
    rw [hl] at hf
    cases v with
    | jstr s => right; exact ⟨s, getD_of_lookup _ hl⟩
    | jnum n => left; rw [getD_of_lookup _ hl]; simpa using hf
    | jbool b => left; rw [getD_of_lookup _ hl]; simpa using hf
    | jnull => left; rw [getD_of_lookup _ hl]; rfl

lemma validate_ok_inv {data : Body} {t v : Str}
    (h : validate_request_data data = .ok (t, v)) :
    data.isEmpty = false ∧
    (∃ s, getD data "text" (.jstr []) = .jstr s ∧ t = pyStrip s) ∧
    t.isEmpty = false ∧ t.length ≤ Config.MAX_TEXT_LENGTH ∧
    getD data "voice" (.jstr (String.toList "af_heart")) = .jstr v ∧
    Config.ALLOWED_VOICES.contains v = true ∧
    ((getD data "format" .jnull).truthy = false ∨
      ∃ fs, getD data "format" .jnull = .jstr fs ∧ pyLower fs = String.toList "wav") := by
  by_cases hne : data.isEmpty = true
  · rw [validate_of_empty data hne] at h; exact Except.noConfusion h
  · have hne' : data.isEmpty = false := by simpa using hne
    cases hg : getD data "text" (.jstr []) with
    | jnum n =>
      rw [validate_of_text_nonstr data hne'
        (fun s hs => by rw [hg] at hs; exact JVal.noConfusion hs)] at h
      exact Except.noConfusion h
    | jbool b =>
      rw [validate_of_text_nonstr data hne'
        (fun s hs => by rw [hg] at hs; exact JVal.noConfusion hs)] at h
      exact Except.noConfusion h
    | jnull =>
      rw [validate_of_text_nonstr data hne'
        (fun s hs => by rw [hg] at hs; exact JVal.noConfusion hs)] at h
      exact Except.noConfusion h
    | jstr s =>
      by_cases hts : (pyStrip s).isEmpty = true
      · rw [validate_of_text_empty data s hne' hg hts] at h; exact Except.noConfusion h
      · have hts' : (pyStrip s).isEmpty = false := by simpa using hts
        by_cases hlen : (pyStrip s).length > Config.MAX_TEXT_LENGTH
        · rw [validate_of_text_long data s hne' hg hlen] at h; exact Except.noConfusion h
        · cases hgv : getD data "voice" (.jstr (String.toList "af_heart")) with
          | jnum n =>
            rw [validate_of_voice_bad data s hne' hg hts' hlen (by rw [hgv]; rfl)] at h
            exact Except.noConfusion h
          | jbool b =>
            rw [validate_of_voice_bad data s hne' hg hts' hlen (by rw [hgv]; rfl)] at h
            exact Except.noConfusion h
          | jnull =>
            rw [validate_of_voice_bad data s hne' hg hts' hlen (by rw [hgv]; rfl)] at h
            exact Except.noConfusion h
          | jstr vs =>
            by_cases hmem : Config.ALLOWED_VOICES.contains vs = true
            · rw [validate_reaches_format data s vs hne' hg hts' hlen hgv hmem] at h
              simp only [formatCheck] at h
              by_cases htr : (getD data "format" .jnull).truthy = true
              · rw [if_pos htr] at h
                cases hgf : getD data "format" .jnull with
                | jstr fs =>
                  simp only [hgf] at h
                  split_ifs at h with hlow
                  · injection h with h2
                    injection h2 with ht2 hv2
                    subst ht2; subst hv2
                    exact ⟨hne', ⟨s, rfl, rfl⟩, hts', Nat.le_of_not_lt hlen, rfl, hmem,
                      .inr ⟨fs, rfl, hlow⟩⟩
                | jnum n => simp only [hgf] at h; exact Except.noConfusion h
                | jbool b => simp only [hgf] at h; exact Except.noConfusion h
                | jnull => simp only [hgf] at h; exact Except.noConfusion h
              · rw [if_neg htr] at h
                injection h with h2
                injection h2 with ht2 hv2
                subst ht2; subst hv2
                exact ⟨hne', ⟨s, rfl, rfl⟩, hts', Nat.le_of_not_lt hlen, rfl, hmem,
                  .inl (by simpa using htr)⟩
            · have hmem' : Config.ALLOWED_VOICES.contains vs = false := by simpa using hmem
              rw [validate_of_voice_bad data s hne' hg hts' hlen
                (by rw [hgv]; simpa [voiceInAllowList] using hmem')] at h
              exact Except.noConfusion h

lemma validate_no_attributeError (data : Body)
    (ht : textFieldIsString data = true) (hf : formatFieldSafe data = true) :
    validate_request_data data ≠ .error .attributeError := by
  by_cases hne : data.isEmpty = true
  · rw [validate_of_empty data hne]; simp
  · have hne' : data.isEmpty = false := by simpa using hne
    obtain ⟨s, hg⟩ := textFieldIsString_getD ht
    by_cases hts : (pyStrip s).isEmpty = true
    · rw [validate_of_text_empty data s hne' hg hts]; simp
    · have hts' : (pyStrip s).isEmpty = false := by simpa using hts
      by_cases hlen : (pyStrip s).length > Config.MAX_TEXT_LENGTH
      · rw [validate_of_text_long data s hne' hg hlen]; simp
      · cases hgv : getD data "voice" (.jstr (String.toList "af_heart")) with
        | jnum n =>
          rw [validate_of_voice_bad data s hne' hg hts' hlen (by rw [hgv]; rfl)]; simp
        | jbool b =>
          rw [validate_of_voice_bad data s hne' hg hts' hlen (by rw [hgv]; rfl)]; simp
        | jnull =>
          rw [validate_of_voice_bad data s hne' hg hts' hlen (by rw [hgv]; rfl)]; simp
        | jstr vs =>
          by_cases hmem : Config.ALLOWED_VOICES.contains vs = true
          · rw [validate_reaches_format data s vs hne' hg hts' hlen hgv hmem]
            simp only [formatCheck]
            rcases formatFieldSafe_getD hf with htr | ⟨fs, hgf⟩
            · simp [htr]
            · simp only [hgf, JVal.truthy]
              split_ifs <;> simp
          · have hmem' : Config.ALLOWED_VOICES.contains vs = false := by simpa using hmem
            rw [validate_of_voice_bad data s hne' hg hts' hlen
              (by rw [hgv]; simpa [voiceInAllowList] using hmem')]
            simp

lemma validate_ok_or_badRequest (data : Body)
    (ht : textFieldIsString data = true) (hf : formatFieldSafe data = true) :
    (∃ r, validate_request_data data = .ok r) ∨
      (∃ m, validate_request_data data = .error (.badRequest m)) := by
  cases hv : validate_request_data data with
  | ok r => exact .inl ⟨r, rfl⟩
  | error e =>
    cases e with
    | badRequest m => exact .inr ⟨m, rfl⟩
    | attributeError => exact absurd hv (validate_no_attributeError data ht hf)

lemma dropWhile_replicate (p : Char → Bool) (c : Char) (h : p c = false) (n : Nat) :
    List.dropWhile p (List.replicate n c) = List.replicate n c := by
  cases n with
  | zero => rfl
  | succ m =>
    rw [List.replicate_succ, List.dropWhile_cons, h]
    simp

lemma pyStrip_replicate (n : Nat) :
    pyStrip (List.replicate n 'a') = List.replicate n 'a' := by
  unfold pyStrip
  rw [dropWhile_replicate isPySpace 'a' rfl, List.reverse_replicate,
    dropWhile_replicate isPySpace 'a' rfl, List.reverse_replicate]

lemma pyStrip_replicate_space (n : Nat) :
    pyStrip (List.replicate n 'a' ++ [' ']) = List.replicate n 'a' := by
  cases n with
  | zero => rfl
  | succ m =>
    have ha : isPySpace 'a' = false := rfl
    have h1 : List.dropWhile isPySpace (List.replicate (m + 1) 'a' ++ [' '])
        = List.replicate (m + 1) 'a' ++ [' '] := by
      rw [List.replicate_succ, List.cons_append, List.dropWhile_cons, ha]
      simp [List.replicate_succ]
    unfold pyStrip
    rw [h1, List.reverse_append, List.reverse_replicate]
    rw [show ([' '] : List Char).reverse = [' '] from rfl, List.singleton_append,
      List.dropWhile_cons]
    rw [show isPySpace ' ' = true from rfl]
    simp only [if_true]
    rw [dropWhile_replicate isPySpace 'a' rfl, List.reverse_replicate]

lemma isEmpty_replicate (n : Nat) (c : Char) (h : n ≠ 0) :
    (List.replicate n c).isEmpty = false := by
  cases n with
  | zero => exact absurd rfl h
  | succ m => rw [List.replicate_succ]; rfl

lemma run_kokoro_envOk (t v p : Str) : (run_kokoro_command envOk t v p).1 = true := by
  simp [run_kokoro_command, envOk]

/-- C2 refuted as stated: a body whose `format` field holds the number 1
is rejected, but with `AttributeError` surfaced as a 500 response, not as
the single 400 client-error kind. -/
theorem C2_counterexample :
    validate_request_data [("text", .jstr (String.toList "Hi")), ("format", .jnum 1)] =
      .error .attributeError ∧
    (synthesize_text envOk (String.toList "/srv") (String.toList "u1")
      [("text", .jstr (String.toList "Hi")), ("format", .jnum 1)]).1 = resp_internal_error ∧
    resp_internal_error.status = 500 := ⟨by decide, by decide, rfl⟩

/-- C2 (amended): for every body whose `text` field, when present, is a
string and whose `format` field cannot make `.lower()` raise (absent, a
string, or falsy), the validator either produces a validated pair or
fails with the single client-error kind `BadRequest`; both endpoints
surface every `BadRequest` as a 400 response carrying its message. -/
theorem C2_client_error_kind (data : Body)
    (ht : textFieldIsString data = true) (hf : formatFieldSafe data = true) :
    ((∃ r, validate_request_data data = .ok r) ∨
      (∃ m, validate_request_data data = .error (.badRequest m))) ∧
    (∀ (env : Env) (d f : Str) (m : String),
      validate_request_data data = .error (.badRequest m) →
      (synthesize_text env d f data).1 = ⟨400, .jsonError "Invalid request" m⟩ ∧
      (synthesize_stream env d f data).1 = ⟨400, .jsonError "Invalid request" m⟩) := by
  refine ⟨validate_ok_or_badRequest data ht hf, ?_⟩
  intro env d f m h
  exact ⟨by rw [synthesize_text_of_badRequest env d f data m h],
    by rw [synthesize_stream_of_badRequest env d f data m h]⟩

/-- Closed witness for the amended C2 at a concrete whitespace-only
body. -/
theorem C2_client_error_kind_witness :
    ((∃ r, validate_request_data [("text", .jstr (String.toList " "))] = .ok r) ∨
      (∃ m, validate_request_data [("text", .jstr (String.toList " "))] =
        .error (.badRequest m))) ∧
    (synthesize_text envOk (String.toList "/srv") (String.toList "u1")
      [("text", .jstr (String.toList " "))]).1 =
      ⟨400, .jsonError "Invalid request" msg_text_required⟩ := by
  have h := C2_client_error_kind [("text", .jstr (String.toList " "))] (by decide) (by decide)
  exact ⟨h.1, (h.2 envOk (String.toList "/srv") (String.toList "u1")
    msg_text_required (by decide)).1⟩

/-- C3 refuted as stated: a request whose `text` field is 10001
characters long (10000 letters plus one trailing space) exceeds the
configured maximum, yet validation succeeds (the length is checked after
stripping) and the request is answered 200. -/
theorem C3_counterexample :
    (List.replicate 10000 'a' ++ [' ']).length > Config.MAX_TEXT_LENGTH ∧
    validate_request_data [("text", .jstr (List.replicate 10000 'a' ++ [' ']))] =
      .ok (List.replicate 10000 'a', String.toList "af_heart") ∧
    (synthesize_text envOk (String.toList "/srv") (String.toList "u1")
      [("text", .jstr (List.replicate 10000 'a' ++ [' ']))]).1.status = 200 := by
  have hlen1 : (List.replicate 10000 'a' ++ [' ']).length > Config.MAX_TEXT_LENGTH := by
    rw [List.length_append, List.length_replicate]
    decide
  have hts' : (pyStrip (List.replicate 10000 'a' ++ [' '])).isEmpty = false := by
    rw [pyStrip_replicate_space]
    exact isEmpty_replicate 10000 'a' (by decide)
  have hlen : ¬ (pyStrip (List.replicate 10000 'a' ++ [' '])).length >
      Config.MAX_TEXT_LENGTH := by
    rw [pyStrip_replicate_space, List.length_replicate]
    decide
  have hfmt := validate_reaches_format
    [("text", .jstr (List.replicate 10000 'a' ++ [' ']))]
    (List.replicate 10000 'a' ++ [' ']) (String.toList "af_heart")
    rfl rfl hts' hlen rfl (by decide)
  have hok : validate_request_data [("text", .jstr (List.replicate 10000 'a' ++ [' ']))] =
      .ok (List.replicate 10000 'a', String.toList "af_heart") := by
    rw [hfmt, show formatCheck [("text", .jstr (List.replicate 10000 'a' ++ [' ']))]
      (pyStrip (List.replicate 10000 'a' ++ [' ']), String.toList "af_heart") =
      .ok (pyStrip (List.replicate 10000 'a' ++ [' ']), String.toList "af_heart") from rfl,
      pyStrip_replicate_space]
  refine ⟨hlen1, hok, ?_⟩
  rw [synthesize_text_of_ok envOk (String.toList "/srv") (String.toList "u1") _ _ _ hok,
    if_pos (run_kokoro_envOk _ _ _)]

/-- C3 (amended): for every request whose `text` field is a string that
is longer than the configured maximum of 10000 characters after stripping
surrounding whitespace, validation fails with the length message and the
response is 400. -/
theorem C3_overlong_text_rejected (data : Body) (s : Str)
    (hs : data.lookup "text" = some (.jstr s))
    (hlen : (pyStrip s).length > Config.MAX_TEXT_LENGTH) :
    validate_request_data data = .error (.badRequest msg_text_length) ∧
    ∀ (env : Env) (d f : Str),
      (synthesize_text env d f data).1 = ⟨400, .jsonError "Invalid request" msg_text_length⟩ := by
  have hne := isEmpty_false_of_lookup hs
  have hval := validate_of_text_long data s hne (getD_of_lookup _ hs) hlen
  exact ⟨hval, fun env d f => by rw [synthesize_text_of_badRequest env d f data _ hval]⟩

/-- Closed witness for the amended C3 at a 10001-character text. -/
theorem C3_overlong_text_rejected_witness :
    validate_request_data [("text", .jstr (List.replicate 10001 'a'))] =
      .error (.badRequest msg_text_length) ∧
    (synthesize_text envOk (String.toList "/srv") (String.toList "u1")
      [("text", .jstr (List.replicate 10001 'a'))]).1 =
      ⟨400, .jsonError "Invalid request" msg_text_length⟩ := by
  have h := C3_overlong_text_rejected [("text", .jstr (List.replicate 10001 'a'))]
    (List.replicate 10001 'a') rfl
    (by rw [pyStrip_replicate, List.length_replicate]; decide)
  exact ⟨h.1, h.2 envOk (String.toList "/srv") (String.toList "u1")⟩

/-- C4 refuted as stated: a body with `format` present and equal to the
empty string — a supplied value that does not case-insensitively equal
`wav` — passes validation (the empty string is falsy, so the check is
skipped) and the request is answered 200. -/
theorem C4_counterexample :
    (([("text", JVal.jstr (String.toList "Hi")), ("format", JVal.jstr [])] : Body).lookup
      "format" = some (JVal.jstr [])) ∧
    pyLower [] ≠ String.toList "wav" ∧
    validate_request_data [("text", .jstr (String.toList "Hi")), ("format", .jstr [])] =
      .ok (String.toList "Hi", String.toList "af_heart") ∧
    (synthesize_text envOk (String.toList "/srv") (String.toList "u1")
      [("text", .jstr (String.toList "Hi")), ("format", .jstr [])]).1.status = 200 :=
  ⟨by decide, by decide, by decide, by decide⟩

/-- C4 (amended): validation succeeds with `format` present only if the
supplied value is falsy (e.g. the empty string) or is a string that
case-insensitively equals `wav`; and every truthy string other than
case-insensitive `wav` (given a string `text`) yields a 400 response. -/
theorem C4_format_gate (data : Body) :
    (∀ (r : Str × Str) (fv : JVal), validate_request_data data = .ok r →
      data.lookup "format" = some fv →
      fv.truthy = false ∨ ∃ s, fv = .jstr s ∧ pyLower s = String.toList "wav") ∧
    (∀ s : Str, textFieldIsString data = true →
      data.lookup "format" = some (.jstr s) → s.isEmpty = false →
      pyLower s ≠ String.toList "wav" →
      ∃ m, validate_request_data data = .error (.badRequest m) ∧
        ∀ (env : Env) (d f : Str),
          (synthesize_text env d f data).1 = ⟨400, .jsonError "Invalid request" m⟩) := by
  constructor
  · intro r fv hok hl
    obtain ⟨t, v⟩ := r
    obtain ⟨_, _, _, _, _, _, hfmt⟩ := validate_ok_inv hok
    rw [getD_of_lookup _ hl] at hfmt
    exact hfmt
  · intro s ht hl hne hlow
    have hsafe : formatFieldSafe data = true := by unfold formatFieldSafe; rw [hl]
    rcases validate_ok_or_badRequest data ht hsafe with ⟨⟨t, v⟩, hr⟩ | ⟨m, hm⟩
    · exfalso
      obtain ⟨_, _, _, _, _, _, hfmt⟩ := validate_ok_inv hr
      rw [getD_of_lookup _ hl] at hfmt
      rcases hfmt with htr | ⟨fs, hfs, hlow2⟩
      · rw [show (JVal.jstr s).truthy = !s.isEmpty from rfl, hne] at htr
        exact Bool.noConfusion htr
      · injection hfs with h2
        rw [← h2] at hlow2
        exact hlow hlow2
    · exact ⟨m, hm, fun env d f => by rw [synthesize_text_of_badRequest env d f data m hm]⟩

/-- Closed witness for the amended C4: `WAV` is accepted, `mp3` yields
400. -/
theorem C4_format_gate_witness :
    ((JVal.jstr (String.toList "WAV")).truthy = false ∨
      ∃ s, JVal.jstr (String.toList "WAV") = .jstr s ∧ pyLower s = String.toList "wav") ∧
    (∃ m, validate_request_data
        [("text", .jstr (String.toList "Hi")), ("format", .jstr (String.toList "mp3"))] =
        .error (.badRequest m) ∧
      ∀ (env : Env) (d f : Str),
        (synthesize_text env d f
          [("text", .jstr (String.toList "Hi")), ("format", .jstr (String.toList "mp3"))]).1 =
          ⟨400, .jsonError "Invalid request" m⟩) := by
  constructor
  · exact (C4_format_gate
      [("text", .jstr (String.toList "Hi")), ("format", .jstr (String.toList "WAV"))]).1
      (String.toList "Hi", String.toList "af_heart") (.jstr (String.toList "WAV"))
      (by decide) rfl
  · exact (C4_format_gate
      [("text", .jstr (String.toList "Hi")), ("format", .jstr (String.toList "mp3"))]).2
      (String.toList "mp3") (by decide) rfl (by decide) (by decide)

/-- C5: when `voice` is omitted, every validated pair carries the fixed
default `af_heart`; when a `voice` value is supplied that is not a member
of the allow-list (in particular any non-string), validation fails with a
client error and the endpoint answers 400.  The `text` field is assumed
string-typed as in the spec data model; the non-string case is settled
under C2. -/
theorem C5_voice_default_and_allowlist :
    (∀ (data : Body) (t v : Str), data.lookup "voice" = none →
      validate_request_data data = .ok (t, v) → v = String.toList "af_heart") ∧
    (∀ (data : Body) (vj : JVal), textFieldIsString data = true →
      data.lookup "voice" = some vj → voiceInAllowList vj = false →
      ∃ m, validate_request_data data = .error (.badRequest m) ∧
        ∀ (env : Env) (d f : Str),
          (synthesize_text env d f data).1 = ⟨400, .jsonError "Invalid request" m⟩) := by
  constructor
  · intro data t v hnone h
    obtain ⟨_, _, _, _, hv, _, _⟩ := validate_ok_inv h
    rw [getD_of_lookup_none _ hnone] at hv
    injection hv with h2
    exact h2.symm
  · intro data vj ht hl hbad
    have hne' : data.isEmpty = false := isEmpty_false_of_lookup hl
    obtain ⟨s, hg⟩ := textFieldIsString_getD ht
    have hgv : getD data "voice" (.jstr (String.toList "af_heart")) = vj :=
      getD_of_lookup _ hl
    by_cases hts : (pyStrip s).isEmpty = true
    · have hval := validate_of_text_empty data s hne' hg hts
      exact ⟨msg_text_required, hval,
        fun env d f => by rw [synthesize_text_of_badRequest env d f data _ hval]⟩
    · have hts' : (pyStrip s).isEmpty = false := by simpa using hts
      by_cases hlen : (pyStrip s).length > Config.MAX_TEXT_LENGTH
      · have hval := validate_of_text_long data s hne' hg hlen
        exact ⟨msg_text_length, hval,
          fun env d f => by rw [synthesize_text_of_badRequest env d f data _ hval]⟩
      · have hval := validate_of_voice_bad data s hne' hg hts' hlen (by rw [hgv]; exact hbad)
        exact ⟨msg_invalid_voice, hval,
          fun env d f => by rw [synthesize_text_of_badRequest env d f data _ hval]⟩

/-- Closed witness for C5: the default at an omitted voice, and 400 for
the invalid voice `xx_invalid`. -/
theorem C5_voice_default_and_allowlist_witness :
    String.toList "af_heart" = String.toList "af_heart" ∧
    (∃ m, validate_request_data [("text", .jstr (String.toList "Hi")),
        ("voice", .jstr (String.toList "xx_invalid"))] = .error (.badRequest m) ∧
      ∀ (env : Env) (d f : Str),
        (synthesize_text env d f [("text", .jstr (String.toList "Hi")),
          ("voice", .jstr (String.toList "xx_invalid"))]).1 =
          ⟨400, .jsonError "Invalid request" m⟩) := by
  constructor
  · exact C5_voice_default_and_allowlist.1 [("text", .jstr (String.toList "Hi"))]
      (String.toList "Hi") (String.toList "af_heart") rfl (by decide)
  · exact C5_voice_default_and_allowlist.2
      [("text", .jstr (String.toList "Hi")), ("voice", .jstr (String.toList "xx_invalid"))]
      (.jstr (String.toList "xx_invalid")) (by decide) rfl (by decide)

/-- C9: for every request whose `text` field is a string, the validated
text equals that string with surrounding whitespace stripped; the length
bound holds of the stripped text; and the stripped text is exactly what
the single subprocess invocation receives as its text argument. -/
theorem C9_text_stripped (data : Body) (s t v : Str)
    (hs : data.lookup "text" = some (.jstr s))
    (h : validate_request_data data = .ok (t, v)) :
    t = pyStrip s ∧ t.length ≤ Config.MAX_TEXT_LENGTH ∧
    ∀ (env : Env) (d f : Str),
      (synthesize_text env d f data).2 =
        [(kokoroCmd (pyStrip s) v (output_path d f), 60)] := by
  obtain ⟨_, ⟨s2, hg2, ht2⟩, _, hlen, _, _, _⟩ := validate_ok_inv h
  rw [getD_of_lookup _ hs] at hg2
  injection hg2 with h2
  rw [← h2] at ht2
  refine ⟨ht2, hlen, fun env d f => ?_⟩
  rw [synthesize_text_calls_of_ok env d f data t v h, ht2]

/-- Closed witness for C9 at a concrete padded text. -/
theorem C9_text_stripped_witness :
    String.toList "Hi" = pyStrip (String.toList "  Hi  ") ∧
    (String.toList "Hi").length ≤ Config.MAX_TEXT_LENGTH ∧
    (synthesize_text envOk (String.toList "/srv") (String.toList "u1")
      [("text", .jstr (String.toList "  Hi  "))]).2 =
      [(kokoroCmd (pyStrip (String.toList "  Hi  ")) (String.toList "af_heart")
        (output_path (String.toList "/srv") (String.toList "u1")), 60)] := by
  have h := C9_text_stripped [("text", .jstr (String.toList "  Hi  "))]
    (String.toList "  Hi  ") (String.toList "Hi") (String.toList "af_heart")
    rfl (by decide)
  exact ⟨h.1, h.2.1, h.2.2 envOk (String.toList "/srv") (String.toList "u1")⟩

/-- C10: the validator applies its checks in the fixed order
absent/empty body, empty text, text length, voice membership, format:
each conjunct shows the corresponding error is reported whatever the
later fields hold. -/
theorem C10_validation_order :
    (∀ data : Body, data.isEmpty = true →
      validate_request_data data = .error (.badRequest msg_body_required)) ∧
    (∀ (data : Body) (s : Str), data.isEmpty = false →
      getD data "text" (.jstr []) = .jstr s → (pyStrip s).isEmpty = true →
      validate_request_data data = .error (.badRequest msg_text_required)) ∧
    (∀ (data : Body) (s : Str), data.isEmpty = false →
      getD data "text" (.jstr []) = .jstr s →
      (pyStrip s).length > Config.MAX_TEXT_LENGTH →
      validate_request_data data = .error (.badRequest msg_text_length)) ∧
    (∀ (data : Body) (s : Str), data.isEmpty = false →
      getD data "text" (.jstr []) = .jstr s → (pyStrip s).isEmpty = false →
      ¬ (pyStrip s).length > Config.MAX_TEXT_LENGTH →
      voiceInAllowList (getD data "voice" (.jstr (String.toList "af_heart"))) = false →
      validate_request_data data = .error (.badRequest msg_invalid_voice)) :=
  ⟨validate_of_empty, validate_of_text_empty, validate_of_text_long, validate_of_voice_bad⟩

/-- Closed witness for C10: four concrete bodies that each violate
several rules at once report the first violated check's error. -/
theorem C10_validation_order_witness :
    validate_request_data [] = .error (.badRequest msg_body_required) ∧
    validate_request_data [("text", .jstr (String.toList "   ")),
      ("voice", .jstr (String.toList "bad")), ("format", .jnum 7)] =
      .error (.badRequest msg_text_required) ∧
    validate_request_data [("text", .jstr (List.replicate 10001 'a')),
      ("voice", .jstr (String.toList "bad")), ("format", .jstr (String.toList "mp3"))] =
      .error (.badRequest msg_text_length) ∧
    validate_request_data [("text", .jstr (String.toList "Hi")),
      ("voice", .jnum 3), ("format", .jstr (String.toList "mp3"))] =
      .error (.badRequest msg_invalid_voice) := by
  refine ⟨C10_validation_order.1 [] rfl, ?_, ?_, ?_⟩
  · exact C10_validation_order.2.1 [("text", .jstr (String.toList "   ")),
      ("voice", .jstr (String.toList "bad")), ("format", .jnum 7)]
      (String.toList "   ") rfl rfl (by decide)
  · exact C10_validation_order.2.2.1 [("text", .jstr (List.replicate 10001 'a')),
      ("voice", .jstr (String.toList "bad")), ("format", .jstr (String.toList "mp3"))]
      (List.replicate 10001 'a') rfl rfl
      (by rw [pyStrip_replicate, List.length_replicate]; decide)
  · exact C10_validation_order.2.2.2 [("text", .jstr (String.toList "Hi")),
      ("voice", .jnum 3), ("format", .jstr (String.toList "mp3"))]
      (String.toList "Hi") rfl rfl (by decide) (by decide) (by decide)
